/-
  Verification of the "Turbulent Brushstrokes — Categorical Van Gogh" sketch.

  Shallow embedding of the p5.js source: JS numbers are modelled as real
  numbers, the p5 host functions (noise, random) as explicit parameters or
  streams, and the mutable globals as a single state record threaded through
  the per-frame and input operations.
-/
import Mathlib

noncomputable section

/-- TWO_PI of p5. -/
def TWO_PI : ℝ := 2 * Real.pi

/-- HALF_PI of p5. -/
def HALF_PI : ℝ := Real.pi / 2

/-- p5 lerp(start, stop, amt) = amt * (stop - start) + start. -/
def lerp (a b t : ℝ) : ℝ := t * (b - a) + a

/-- p5 random(min, max) given the unit sample u drawn from [0,1). -/
def randIn (a b u : ℝ) : ℝ := a + u * (b - a)

/-- p5 random(max) given the unit sample u drawn from [0,1). -/
def randMax (m u : ℝ) : ℝ := u * m

/-- p5 constrain on integers: max(min(n, high), low). -/
def constrainI (n lo hi : ℤ) : ℤ := max (min n hi) lo

/-- JS Math.atan2(y, x). -/
def atan2 (y x : ℝ) : ℝ :=
  if 0 < x then Real.arctan (y / x)
  else if x < 0 then
    (if 0 ≤ y then Real.arctan (y / x) + Real.pi else Real.arctan (y / x) - Real.pi)
  else if 0 < y then Real.pi / 2
  else if y < 0 then -(Real.pi / 2)
  else 0

/-- An RGB color triple (JS array [r, g, b]). -/
structure RGB where
  r : ℝ
  g : ℝ
  b : ℝ

/-- The Kolmogorov turbulence parameter block of the starryNight preset. -/
structure Kolmogorov where
  numEddies : ℕ
  cascadeExponent : ℝ
  batchelorExponent : ℝ
  energyDecay : ℝ

/-- One entry of the PERIODS table. -/
structure Preset where
  pname : String
  desc : String
  colors : List RGB
  background : RGB
  strokeType : String
  strokeLength : ℝ × ℝ
  strokeWidth : ℝ × ℝ
  strokeCurve : ℝ
  flowComplexity : ℝ
  speed : ℝ
  kolmogorov : Option Kolmogorov

/-- The five period identifiers (the keys of the PERIODS object). -/
inductive PeriodId where
  | nuenen
  | paris
  | arles
  | starryNight
  | almond
deriving DecidableEq

/-- kolmogorov block of PERIODS.starryNight. -/
def starryNightKolmogorov : Kolmogorov :=
  { numEddies := 14
    cascadeExponent := -(5 / 3)
    batchelorExponent := -1
    energyDecay := 0.7 }

/-- The PERIODS table from the source, keyed by period id. -/
def PERIODS : PeriodId → Preset
  | PeriodId.nuenen =>
    { pname := "The Potato Eaters"
      desc := "Nuenen, 1885 — Heavy impasto, peasant earth"
      colors := [⟨72, 60, 50⟩, ⟨101, 83, 67⟩, ⟨139, 119, 92⟩, ⟨62, 54, 46⟩,
                 ⟨156, 136, 104⟩, ⟨45, 40, 35⟩, ⟨120, 95, 70⟩]
      background := ⟨25, 22, 18⟩
      strokeType := "impasto"
      strokeLength := (8, 20)
      strokeWidth := (4, 10)
      strokeCurve := 0.1
      flowComplexity := 0.3
      speed := 0.6
      kolmogorov := none }
  | PeriodId.paris =>
    { pname := "Neo-Impressionist Light"
      desc := "Paris, 1886-87 — Pointillist dots after Seurat"
      colors := [⟨200, 100, 100⟩, ⟨100, 150, 200⟩, ⟨200, 200, 100⟩, ⟨150, 200, 150⟩,
                 ⟨200, 150, 200⟩, ⟨255, 200, 150⟩, ⟨100, 180, 180⟩, ⟨220, 180, 140⟩]
      background := ⟨45, 42, 50⟩
      strokeType := "pointillist"
      strokeLength := (2, 6)
      strokeWidth := (3, 8)
      strokeCurve := 0
      flowComplexity := 0.4
      speed := 0.8
      kolmogorov := none }
  | PeriodId.arles =>
    { pname := "Sunflowers"
      desc := "Arles, 1888 — Single flow of impasto, parallel strokes"
      colors := [⟨255, 200, 50⟩, ⟨255, 170, 30⟩, ⟨255, 220, 100⟩, ⟨200, 140, 40⟩,
                 ⟨60, 80, 170⟩, ⟨40, 60, 130⟩, ⟨255, 150, 50⟩, ⟨180, 120, 30⟩]
      background := ⟨20, 25, 50⟩
      strokeType := "directional"
      strokeLength := (25, 60)
      strokeWidth := (3, 7)
      strokeCurve := 0.2
      flowComplexity := 0.5
      speed := 1.0
      kolmogorov := none }
  | PeriodId.starryNight =>
    { pname := "The Starry Night"
      desc := "Saint-Rémy, 1889 — Kolmogorov turbulence, -5/3 cascade"
      colors := [⟨40, 60, 130⟩, ⟨70, 100, 170⟩, ⟨100, 140, 190⟩, ⟨50, 80, 150⟩,
                 ⟨30, 45, 100⟩, ⟨255, 230, 120⟩, ⟨255, 200, 80⟩, ⟨200, 220, 255⟩]
      background := ⟨12, 18, 35⟩
      strokeType := "turbulent"
      strokeLength := (15, 45)
      strokeWidth := (2, 6)
      strokeCurve := 0.8
      flowComplexity := 1.0
      speed := 1.2
      kolmogorov := some starryNightKolmogorov }
  | PeriodId.almond =>
    { pname := "Almond Blossoms"
      desc := "Saint-Rémy, 1890 — Japanese curves, serene flow"
      colors := [⟨130, 180, 210⟩, ⟨160, 200, 220⟩, ⟨100, 160, 190⟩, ⟨80, 140, 170⟩,
                 ⟨255, 252, 250⟩, ⟨255, 235, 235⟩, ⟨140, 100, 70⟩, ⟨180, 150, 110⟩]
      background := ⟨70, 120, 150⟩
      strokeType := "flowing"
      strokeLength := (30, 80)
      strokeWidth := (2, 5)
      strokeCurve := 0.6
      flowComplexity := 0.25
      speed := 0.5
      kolmogorov := none }

/-- PERIODS[name]: the string-keyed lookup used by switchToPeriod. -/
def lookupPeriod (name : String) : Option PeriodId :=
  if name = "nuenen" then some PeriodId.nuenen
  else if name = "paris" then some PeriodId.paris
  else if name = "arles" then some PeriodId.arles
  else if name = "starryNight" then some PeriodId.starryNight
  else if name = "almond" then some PeriodId.almond
  else none

/-- The key string of each period (Object.keys order of PERIODS). -/
def periodName : PeriodId → String
  | PeriodId.nuenen => "nuenen"
  | PeriodId.paris => "paris"
  | PeriodId.arles => "arles"
  | PeriodId.starryNight => "starryNight"
  | PeriodId.almond => "almond"

/-- Object.keys(PERIODS) in insertion order. -/
def periodOrder : List PeriodId :=
  [PeriodId.nuenen, PeriodId.paris, PeriodId.arles, PeriodId.starryNight, PeriodId.almond]

/-- Global constant SCALE. -/
def SCALE : ℝ := 15

/-- Global constant NUM_PARTICLES. -/
def NUM_PARTICLES : ℕ := 1500

/-- Global constant PERIOD_DURATION (milliseconds). -/
def PERIOD_DURATION : ℝ := 35000

/-- A p5.Vector restricted to the two components the sketch uses. -/
structure Vec where
  x : ℝ
  y : ℝ

/-- p5 Vector.add. -/
def Vec.add (v w : Vec) : Vec := ⟨v.x + w.x, v.y + w.y⟩

/-- p5 Vector.mult by a scalar. -/
def Vec.smul (v : Vec) (k : ℝ) : Vec := ⟨v.x * k, v.y * k⟩

/-- p5 Vector.mag. -/
def Vec.mag (v : Vec) : ℝ := Real.sqrt (v.x * v.x + v.y * v.y)

/-- p5 Vector.normalize: divide by the magnitude unless it is zero. -/
def Vec.normalize (v : Vec) : Vec :=
  if v.mag = 0 then v else v.smul (1 / v.mag)

/-- p5 Vector.setMag: normalize then scale. -/
def Vec.setMag (v : Vec) (m : ℝ) : Vec := (v.normalize).smul m

/-- p5 Vector.limit: rescale to m when the magnitude exceeds m. -/
def Vec.limit (v : Vec) (m : ℝ) : Vec :=
  if v.mag > m then v.setMag m else v

/-- p5.Vector.fromAngle. -/
def Vec.fromAngle (a : ℝ) : Vec := ⟨Real.cos a, Real.sin a⟩

/-- One vortex generator of the Kolmogorov model (class Eddy). -/
structure Eddy where
  x : ℝ
  y : ℝ
  baseScale : ℝ
  scale : ℝ
  rotation : ℝ
  phase : ℝ
  speed : ℝ
  energy : ℝ

/-- The Eddy constructor.  u1 and u2 are the unit samples consumed by
random(TWO_PI) and random(0.5, 1.5); the energy is
pow(scale, -PERIODS.starryNight.kolmogorov.cascadeExponent). -/
def Eddy.make (x y scale rotation u1 u2 : ℝ) : Eddy :=
  { x := x
    y := y
    baseScale := scale
    scale := scale
    rotation := rotation
    phase := randMax TWO_PI u1
    speed := randIn 0.5 1.5 u2
    energy := scale ^ (-starryNightKolmogorov.cascadeExponent) }

/-- Eddy.update(dt): advance the phase, pulse the scale around baseScale. -/
def Eddy.update (dt : ℝ) (e : Eddy) : Eddy :=
  let phase := e.phase + dt * e.speed * 0.001
  { e with phase := phase, scale := e.baseScale * (1 + 0.2 * Real.sin phase) }

/-- The {angle, strength} record returned by Eddy.getInfluence. -/
structure Influence where
  angle : ℝ
  strength : ℝ

/-- Eddy.getInfluence(px, py): none beyond 3 times the current scale,
otherwise an exponentially decaying spiralling influence. -/
def Eddy.getInfluence (e : Eddy) (px py : ℝ) : Option Influence :=
  let dx := px - e.x
  let dy := py - e.y
  let dist := Real.sqrt (dx * dx + dy * dy)
  if dist > e.scale * 3 then none
  else
    let influence := Real.exp (-dist / e.scale)
    let angle := atan2 dy dx + HALF_PI * e.rotation
    let spiralAngle := angle + dist * 0.02 * e.rotation
    some { angle := spiralAngle, strength := influence * e.energy }

/-- One of the 5 large sky swirls of initializeEddies; v is its slice of the
unit-sample stream (x, y, scale, rotation, phase, speed in call order). -/
def largeEddy (w h : ℝ) (v : ℕ → ℝ) : Eddy :=
  Eddy.make (randIn (w * 0.1) (w * 0.9) (v 0)) (randIn (h * 0.1) (h * 0.5) (v 1))
    (randIn 150 300 (v 2)) (if v 3 > 0.5 then 1 else -1) (v 4) (v 5)

/-- One of the 5 medium eddies of initializeEddies. -/
def mediumEddy (w h : ℝ) (v : ℕ → ℝ) : Eddy :=
  Eddy.make (randMax w (v 0)) (randMax h (v 1))
    (randIn 80 150 (v 2)) (if v 3 > 0.5 then 1 else -1) (v 4) (v 5)

/-- One of the 4 small eddies of initializeEddies. -/
def smallEddy (w h : ℝ) (v : ℕ → ℝ) : Eddy :=
  Eddy.make (randMax w (v 0)) (randMax h (v 1))
    (randIn 40 80 (v 2)) (if v 3 > 0.5 then 1 else -1) (v 4) (v 5)

/-- The fresh eddy list built by initializeEddies(): 5 large, then 5 medium,
then 4 small, consuming 6 unit samples per eddy from the stream u. -/
def initializeEddiesList (w h : ℝ) (u : ℕ → ℝ) : List Eddy :=
  (List.range 5).map (fun i => largeEddy w h (fun j => u (6 * i + j))) ++
    ((List.range 5).map (fun i => mediumEddy w h (fun j => u (30 + 6 * i + j))) ++
      (List.range 4).map (fun i => smallEddy w h (fun j => u (60 + 6 * i + j))))

/-- The for-loop accumulator of getTurbulentFlow: (totalAngle, totalWeight)
summed over the eddies whose influence at the point is non-null. -/
def influenceFoldAux (px py : ℝ) (init : ℝ × ℝ) (l : List Eddy) : ℝ × ℝ :=
  l.foldl
    (fun acc e =>
      match Eddy.getInfluence e px py with
      | some influence => (acc.1 + influence.angle * influence.strength, acc.2 + influence.strength)
      | none => acc)
    init

/-- getTurbulentFlow(px, py): eddy superposition plus a low-weight
noise-driven background angle. -/
def getTurbulentFlow (eddies : List Eddy) (noisefn : ℝ → ℝ → ℝ → ℝ) (t px py : ℝ) : ℝ :=
  let tw := influenceFoldAux px py (0, 0) eddies
  let bgAngle := noisefn (px * 0.002) (py * 0.002) (t * 0.5) * TWO_PI
  let bgWeight : ℝ := 0.3
  let totalAngle := tw.1 + bgAngle * bgWeight
  let totalWeight := tw.2 + bgWeight
  if totalWeight > 0 then totalAngle / totalWeight else bgAngle

/-- The non-null influences of the eddies at a point, in list order. -/
def eddyInfluences (eddies : List Eddy) (px py : ℝ) : List Influence :=
  eddies.filterMap (fun e => Eddy.getInfluence e px py)

/-- The spec's reading of totalFlow: the strength-weighted mean of the
influencing eddies' angles together with the 0.3-weight background angle,
normalized by the total weight. -/
def turbulentFlowSpec (eddies : List Eddy) (noisefn : ℝ → ℝ → ℝ → ℝ) (t px py : ℝ) : ℝ :=
  let infl := eddyInfluences eddies px py
  let bgAngle := noisefn (px * 0.002) (py * 0.002) (t * 0.5) * TWO_PI
  ((infl.map (fun i => i.angle * i.strength)).sum + bgAngle * 0.3) /
    ((infl.map Influence.strength).sum + 0.3)

/-- JS random(array): array[floor(random(array.length))], with a default for
the out-of-range accesses that cannot happen for in-range unit samples. -/
def sampleArr {α : Type} (l : List α) (dflt : α) (u : ℝ) : α :=
  (l.get? (⌊u * (l.length : ℝ)⌋).toNat).getD dflt

/-- One advected brushstroke particle (class Particle). -/
structure Particle where
  pos : Vec
  vel : Vec
  acc : Vec
  maxSpeed : ℝ
  prevPos : Vec
  history : List Vec
  color : RGB
  life : ℝ
  maxLife : ℝ
  strokeW : ℝ
  strokeLen : ℤ

/-- Particle.pickColor: a palette sample from the active preset lerped toward
a palette sample from the target preset with weight t = 1 - transition. -/
def pickColor (periods : PeriodId → Preset) (cur tgt : PeriodId) (trans u1 u2 : ℝ) : RGB :=
  let colors1 := (periods cur).colors
  let colors2 := (periods tgt).colors
  let c1 := sampleArr colors1 ⟨0, 0, 0⟩ u1
  let c2 := sampleArr colors2 ⟨0, 0, 0⟩ u2
  let t := 1 - trans
  ⟨lerp c1.r c2.r t, lerp c1.g c2.g t, lerp c1.b c2.b t⟩

/-- Particle.pickStrokeWidth: sampled from the interpolated width range. -/
def pickStrokeWidth (periods : PeriodId → Preset) (cur tgt : PeriodId) (trans u : ℝ) : ℝ :=
  let sw1 := (periods cur).strokeWidth
  let sw2 := (periods tgt).strokeWidth
  let t := 1 - trans
  randIn (lerp sw1.1 sw2.1 t) (lerp sw1.2 sw2.2 t) u

/-- Particle.pickStrokeLength: floor of a sample from the interpolated range. -/
def pickStrokeLength (periods : PeriodId → Preset) (cur tgt : PeriodId) (trans u : ℝ) : ℤ :=
  let sl1 := (periods cur).strokeLength
  let sl2 := (periods tgt).strokeLength
  let t := 1 - trans
  ⌊randIn (lerp sl1.1 sl2.1 t) (lerp sl1.2 sl2.2 t) u⌋

/-- JS array indexing with an integer index: undefined (none) when negative
or beyond the length. -/
def getI {α : Type} (l : List α) (i : ℤ) : Option α :=
  if 0 ≤ i then l.get? i.toNat else none

/-- The clamped flow-field index computed by Particle.follow. -/
def gridIndex (pos : Vec) (cols rows : ℕ) : ℤ :=
  let x := constrainI ⌊pos.x / SCALE⌋ 0 ((cols : ℤ) - 1)
  let y := constrainI ⌊pos.y / SCALE⌋ 0 ((rows : ℤ) - 1)
  x + y * (cols : ℤ)

/-- Particle.follow(vectors, speedMult): sample the clamped grid cell and,
when it holds a vector, accumulate it scaled by speedMult * 0.5. -/
def Particle.follow (p : Particle) (vectors : List (Option Vec)) (cols rows : ℕ)
    (speedMult : ℝ) : Particle :=
  let index := gridIndex p.pos cols rows
  match getI vectors index with
  | some (some force) => { p with acc := p.acc.add (force.smul (speedMult * 0.5)) }
  | _ => p

/-- The mutable globals of the sketch, together with the host-provided noise
function and the unit-sample stream rand (with its cursor rk) that models
the calls to random(). -/
structure GState where
  periods : PeriodId → Preset
  particles : List Particle
  flowField : List (Option Vec)
  cols : ℕ
  rows : ℕ
  width : ℝ
  height : ℝ
  currentId : PeriodId
  targetId : PeriodId
  periodTransition : ℝ
  periodCycleTimer : ℝ
  time : ℝ
  isPaused : Bool
  showInfo : Bool
  eddyCenters : List Eddy
  noise : ℝ → ℝ → ℝ → ℝ
  rand : ℕ → ℝ
  rk : ℕ

/-- initializeEddies(): replace the eddy list with a fresh 14-eddy batch,
consuming 84 unit samples. -/
def initializeEddies (s : GState) : GState :=
  { s with
    eddyCenters := initializeEddiesList s.width s.height (fun j => s.rand (s.rk + j))
    rk := s.rk + 84 }

/-- The Particle constructor, consuming 7 unit samples starting at index k. -/
def newParticle (s : GState) (k : ℕ) : Particle :=
  let pos : Vec := ⟨randMax s.width (s.rand k), randMax s.height (s.rand (k + 1))⟩
  { pos := pos
    vel := ⟨0, 0⟩
    acc := ⟨0, 0⟩
    maxSpeed := 3
    prevPos := pos
    history := []
    color := pickColor s.periods s.currentId s.targetId s.periodTransition
      (s.rand (k + 2)) (s.rand (k + 3))
    life := randIn 60 200 (s.rand (k + 4))
    maxLife := randIn 60 200 (s.rand (k + 4))
    strokeW := pickStrokeWidth s.periods s.currentId s.targetId s.periodTransition
      (s.rand (k + 5))
    strokeLen := pickStrokeLength s.periods s.currentId s.targetId s.periodTransition
      (s.rand (k + 6)) }

/-- initParticles(): NUM_PARTICLES fresh particles. -/
def initParticles (s : GState) : GState :=
  { s with
    particles := (List.range NUM_PARTICLES).map (fun i => newParticle s (s.rk + 7 * i))
    rk := s.rk + 7 * NUM_PARTICLES }

/-- Particle.respawn(), consuming 7 unit samples starting at index k
(position x and y, life, two palette picks, stroke width, stroke length). -/
def respawnParticle (s : GState) (k : ℕ) (p : Particle) : Particle :=
  let pos : Vec := ⟨randMax s.width (s.rand k), randMax s.height (s.rand (k + 1))⟩
  { p with
    pos := pos
    prevPos := pos
    vel := p.vel.smul 0
    history := []
    life := randIn 60 200 (s.rand (k + 2))
    maxLife := randIn 60 200 (s.rand (k + 2))
    color := pickColor s.periods s.currentId s.targetId s.periodTransition
      (s.rand (k + 3)) (s.rand (k + 4))
    strokeW := pickStrokeWidth s.periods s.currentId s.targetId s.periodTransition
      (s.rand (k + 5))
    strokeLen := pickStrokeLength s.periods s.currentId s.targetId s.periodTransition
      (s.rand (k + 6)) }

/-- Particle.update(): integrate, record history, age, respawn on death.
Returns the particle and the new stream cursor. -/
def Particle.updateP (s : GState) (k : ℕ) (p : Particle) : Particle × ℕ :=
  let vel := (p.vel.add p.acc).limit p.maxSpeed
  let pos := p.pos.add vel
  let history0 := p.history ++ [pos]
  let history := if (history0.length : ℤ) > p.strokeLen then history0.tail else history0
  let life := p.life - 1
  let p1 := { p with vel := vel, pos := pos, acc := p.acc.smul 0,
                     history := history, life := life }
  if life ≤ 0 then (respawnParticle s k p1, k + 7) else (p1, k)

/-- Particle.edges(): respawn when out of the canvas by more than margin 10. -/
def Particle.edges (s : GState) (k : ℕ) (p : Particle) : Particle × ℕ :=
  if p.pos.x > s.width + 10 ∨ p.pos.x < -10 ∨ p.pos.y > s.height + 10 ∨ p.pos.y < -10 then
    (respawnParticle s k p, k + 7)
  else (p, k)

/-- The number of random() calls made inside Particle.show's draw branch:
pointillist draws an optional complementary dot, turbulent an occasional
highlight blob.  r0 is the first sample it would read. -/
def showRngUse (p : Particle) (stype : String) (r0 : ℝ) : ℕ :=
  if stype = "pointillist" then (if r0 > 0.7 then 3 else 1)
  else if stype = "turbulent" then (if p.history.length > 5 then 1 else 0)
  else 0

/-- The state effect of Particle.show(): prevPos := pos. -/
def showParticle (p : Particle) : Particle := { p with prevPos := p.pos }

/-- getCurrentStrokeType(): active technique when settled or in the first
half of a transition, target technique in the second half. -/
def getCurrentStrokeType (s : GState) : String :=
  if s.periodTransition ≥ 1.0 then (s.periods s.currentId).strokeType
  else if s.periodTransition > 0.5 then (s.periods s.currentId).strokeType
  else (s.periods s.targetId).strokeType

/-- getCurrentSpeed(): speed lerped between active and target presets. -/
def getCurrentSpeed (s : GState) : ℝ :=
  lerp (s.periods s.currentId).speed (s.periods s.targetId).speed (1 - s.periodTransition)

/-- getImpastoFlow: low-frequency noise angle plus a block-quantized term. -/
def getImpastoFlow (s : GState) (px py xOff yOff : ℝ) : ℝ :=
  let baseAngle := s.noise (xOff * 0.5) (yOff * 0.5) (s.time * 0.3) * TWO_PI
  let blockAngle := s.noise (((⌊px / 50⌋ : ℤ) : ℝ) * 0.3) (((⌊py / 50⌋ : ℤ) : ℝ) * 0.3) 0 *
    Real.pi
  baseAngle + blockAngle * 0.5

/-- getPointillistFlow: doubled noise angle plus a random jitter in plus or
minus a quarter turn; u is the unit sample of the random(-PI/4, PI/4) call. -/
def getPointillistFlow (s : GState) (px py xOff yOff u : ℝ) : ℝ :=
  let baseAngle := s.noise xOff yOff (s.time * 0.5) * TWO_PI * 2
  let jitter := randIn (-(Real.pi / 4)) (Real.pi / 4) u
  baseAngle + jitter

/-- getDirectionalFlow: dominant diagonal plus noise variation plus a
time-oscillating radial term toward the canvas center. -/
def getDirectionalFlow (s : GState) (px py xOff yOff : ℝ) : ℝ :=
  let dominantAngle := Real.pi * 0.75
  let variation := s.noise (xOff * 0.3) (yOff * 0.3) (s.time * 0.4) * Real.pi * 0.5
  let cx := s.width / 2
  let cy := s.height / 2
  let toCenter := atan2 (cy - py) (cx - px)
  let radialInfluence := Real.sin (s.time * 0.5) * 0.3
  dominantAngle + variation + toCenter * radialInfluence

/-- getFlowingFlow: halved noise angle plus a horizontal wave plus a
constant upward bias. -/
def getFlowingFlow (s : GState) (px py xOff yOff : ℝ) : ℝ :=
  let baseAngle := s.noise (xOff * 0.2) (yOff * 0.2) (s.time * 0.2) * TWO_PI
  let wave := Real.sin (px * 0.01 + s.time * 0.3) * Real.pi * 0.3
  let verticalBias := Real.pi * 0.5
  baseAngle * 0.5 + wave + verticalBias * 0.3

/-- The switch body of updateFlowField for the grid cell (x, y); u is the
unit sample the pointillist branch would consume for this cell. -/
def flowAngleAt (s : GState) (x y : ℕ) (u : ℝ) : ℝ :=
  let px := (x : ℝ) * SCALE
  let py := (y : ℝ) * SCALE
  let xOff := (x : ℝ) * 0.05
  let yOff := (y : ℝ) * 0.05
  let currentType := getCurrentStrokeType s
  if currentType = "impasto" then getImpastoFlow s px py xOff yOff
  else if currentType = "pointillist" then getPointillistFlow s px py xOff yOff u
  else if currentType = "directional" then getDirectionalFlow s px py xOff yOff
  else if currentType = "turbulent" then getTurbulentFlow s.eddyCenters s.noise s.time px py
  else if currentType = "flowing" then getFlowingFlow s px py xOff yOff
  else s.noise xOff yOff s.time * TWO_PI

/-- updateFlowField(): recompute every cell's unit vector; cell (x, y) sits
at index x + y * cols.  Only the pointillist technique consumes randoms. -/
def updateFlowField (s : GState) : GState :=
  { s with
    flowField := (List.range (s.rows * s.cols)).map
      (fun i => some ((Vec.fromAngle (flowAngleAt s (i % s.cols) (i / s.cols)
        (s.rand (s.rk + i)))).setMag 1))
    rk := s.rk +
      (if getCurrentStrokeType s = "pointillist" then s.rows * s.cols else 0) }

/-- switchToPeriod(name): ignore unknown names and the current target;
otherwise set the target, restart the transition, and when entering
starryNight reinitialize the eddies. -/
def switchToPeriod (s : GState) (name : String) : GState :=
  match lookupPeriod name with
  | none => s
  | some pid =>
    if pid = s.targetId then s
    else
      let s1 := { s with targetId := pid, periodTransition := 0 }
      if name = "starryNight" then initializeEddies s1 else s1

/-- cyclePeriod(): switch to the next preset in PERIODS key order. -/
def cyclePeriod (s : GState) : GState :=
  let currentIndex := periodOrder.findIdx (fun pid => pid = s.currentId)
  let nextIndex := (currentIndex + 1) % periodOrder.length
  switchToPeriod s (periodName (periodOrder.getD nextIndex PeriodId.nuenen))

/-- The draw() fragment advancing time. -/
def advanceTime (s : GState) (dt : ℝ) : GState :=
  { s with time := s.time + dt * 0.001 }

/-- The draw() fragment accumulating the auto-cycle timer and cycling when
it exceeds PERIOD_DURATION. -/
def autoCycle (s : GState) (dt : ℝ) : GState :=
  let s1 := { s with periodCycleTimer := s.periodCycleTimer + dt }
  if s1.periodCycleTimer > PERIOD_DURATION then
    { cyclePeriod s1 with periodCycleTimer := 0 }
  else s1

/-- The draw() fragment advancing the transition: step by 0.003 while below
1, clamping to exactly 1 and settling the active preset on arrival. -/
def tickTransition (s : GState) : GState :=
  if s.periodTransition < 1.0 then
    let p := s.periodTransition + 0.003
    if p ≥ 1.0 then { s with periodTransition := 1.0, currentId := s.targetId }
    else { s with periodTransition := p }
  else s

/-- The draw() fragment updating every eddy. -/
def updateEddies (s : GState) (dt : ℝ) : GState :=
  { s with eddyCenters := s.eddyCenters.map (Eddy.update dt) }

/-- The per-particle body of the draw() loop: follow, update, edges, show. -/
def particleFrame (s : GState) (spd : ℝ) (stype : String) (k : ℕ) (p : Particle) :
    Particle × ℕ :=
  let p1 := p.follow s.flowField s.cols s.rows spd
  let q2 := p1.updateP s k
  let q3 := q2.1.edges s q2.2
  (showParticle q3.1, q3.2 + showRngUse q3.1 stype (s.rand q3.2))

/-- The particle loop of draw(). -/
def runParticles (s : GState) : GState :=
  let spd := getCurrentSpeed s
  let stype := getCurrentStrokeType s
  let r := s.particles.foldl
    (fun acc p =>
      let q := particleFrame s spd stype acc.2 p
      (acc.1 ++ [q.1], q.2))
    (([] : List Particle), s.rk)
  { s with particles := r.1, rk := r.2 }

/-- draw(): the per-frame entry point (a no-op while paused). -/
def draw (s : GState) (dt : ℝ) : GState :=
  if s.isPaused then s
  else
    runParticles (updateFlowField (updateEddies (tickTransition (autoCycle
      (advanceTime s dt) dt)) dt))

/-- keyPressed(key): preset switches, pause, reset, fullscreen, info. -/
def keyPressed (s : GState) (key : String) : GState :=
  if key = "1" then switchToPeriod s ("nuenen")
  else if key = "2" then switchToPeriod s ("paris")
  else if key = "3" then switchToPeriod s ("arles")
  else if key = "4" then switchToPeriod s ("starryNight")
  else if key = "5" then switchToPeriod s ("almond")
  else if key = " " then { s with isPaused := !s.isPaused }
  else if key = "r" ∨ key = "R" then
    { initParticles (initializeEddies s) with time := 0 }
  else if key = "f" ∨ key = "F" then s
  else if key = "h" ∨ key = "H" then { s with showInfo := !s.showInfo }
  else s

/-- windowResized(): recompute the grid dimensions, reallocate the flow
field (to undefined cells) and reinitialize the eddies. -/
def windowResized (s : GState) (w h : ℝ) : GState :=
  let c := (⌊w / SCALE⌋ + 1).toNat
  let r := (⌊h / SCALE⌋ + 1).toNat
  initializeEddies
    { s with width := w, height := h, cols := c, rows := r,
             flowField := List.replicate (c * r) none }

/-- One iteration of the mouseMoved loop: swirl a random particle within
150 pixels of the cursor. -/
def mouseStep (mx my : ℝ) (s : GState) : GState :=
  let u := s.rand s.rk
  let idx := (⌊u * (s.particles.length : ℝ)⌋).toNat
  match s.particles.get? idx with
  | none => { s with rk := s.rk + 1 }
  | some p =>
    let d := Real.sqrt ((p.pos.x - mx) * (p.pos.x - mx) + (p.pos.y - my) * (p.pos.y - my))
    if d < 150 then
      let angle := atan2 (p.pos.y - my) (p.pos.x - mx) + HALF_PI
      let force := (Vec.fromAngle angle).smul (0.8 * (1 - d / 150))
      { s with particles := s.particles.set idx { p with acc := p.acc.add force },
               rk := s.rk + 1 }
    else { s with rk := s.rk + 1 }

/-- mouseMoved(): three tangential nudges, only in turbulent mode. -/
def mouseMoved (s : GState) (mx my : ℝ) : GState :=
  if getCurrentStrokeType s = "turbulent" then
    mouseStep mx my (mouseStep mx my (mouseStep mx my s))
  else s

/-- The externally triggered operations of the sketch. -/
inductive Op where
  | frame (dt : ℝ)
  | key (k : String)
  | resize (w h : ℝ)
  | mouse (mx my : ℝ)

/-- Dispatch one operation. -/
def step (s : GState) : Op → GState
  | Op.frame dt => draw s dt
  | Op.key k => keyPressed s k
  | Op.resize w h => windowResized s w h
  | Op.mouse mx my => mouseMoved s mx my

/-- Run a sequence of operations. -/
def runOps (s : GState) (ops : List Op) : GState :=
  ops.foldl step s

/-- A small concrete state used to exercise the theorems. -/
def baseState : GState :=
  { periods := PERIODS
    particles := []
    flowField := []
    cols := 1
    rows := 1
    width := 150
    height := 100
    currentId := PeriodId.nuenen
    targetId := PeriodId.nuenen
    periodTransition := 1
    periodCycleTimer := 0
    time := 0
    isPaused := false
    showInfo := true
    eddyCenters := []
    noise := fun _ _ _ => 0
    rand := fun _ => 0
    rk := 0 }

/-- A concrete particle used to exercise the theorems. -/
def testParticle : Particle :=
  { pos := ⟨0, 0⟩
    vel := ⟨0, 0⟩
    acc := ⟨0, 0⟩
    maxSpeed := 3
    prevPos := ⟨0, 0⟩
    history := []
    color := ⟨0, 0, 0⟩
    life := 100
    maxLife := 100
    strokeW := 1
    strokeLen := 10 }

/-! Helper lemmas: the state operations never touch the PERIODS table, and
only tickTransition and switchToPeriod touch the transition progress. -/

@[simp] theorem initializeEddies_periods (s : GState) :
    (initializeEddies s).periods = s.periods := rfl

@[simp] theorem initializeEddies_trans (s : GState) :
    (initializeEddies s).periodTransition = s.periodTransition := rfl

@[simp] theorem initParticles_periods (s : GState) :
    (initParticles s).periods = s.periods := by
  simp only [initParticles]

@[simp] theorem initParticles_trans (s : GState) :
    (initParticles s).periodTransition = s.periodTransition := by
  simp only [initParticles]

@[simp] theorem updateFlowField_periods (s : GState) :
    (updateFlowField s).periods = s.periods := rfl

@[simp] theorem updateFlowField_trans (s : GState) :
    (updateFlowField s).periodTransition = s.periodTransition := rfl

@[simp] theorem advanceTime_periods (s : GState) (dt : ℝ) :
    (advanceTime s dt).periods = s.periods := rfl

@[simp] theorem advanceTime_trans (s : GState) (dt : ℝ) :
    (advanceTime s dt).periodTransition = s.periodTransition := rfl

@[simp] theorem updateEddies_periods (s : GState) (dt : ℝ) :
    (updateEddies s dt).periods = s.periods := rfl

@[simp] theorem updateEddies_trans (s : GState) (dt : ℝ) :
    (updateEddies s dt).periodTransition = s.periodTransition := rfl

@[simp] theorem runParticles_periods (s : GState) :
    (runParticles s).periods = s.periods := rfl

@[simp] theorem runParticles_trans (s : GState) :
    (runParticles s).periodTransition = s.periodTransition := rfl

@[simp] theorem switchToPeriod_periods (s : GState) (name : String) :
    (switchToPeriod s name).periods = s.periods := by
  unfold switchToPeriod
  cases lookupPeriod name with
  | none => rfl
  | some pid =>
    dsimp only
    split
    · rfl
    · split <;> rfl

@[simp] theorem cyclePeriod_periods (s : GState) :
    (cyclePeriod s).periods = s.periods := by
  unfold cyclePeriod
  exact switchToPeriod_periods ..

@[simp] theorem autoCycle_periods (s : GState) (dt : ℝ) :
    (autoCycle s dt).periods = s.periods := by
  simp only [autoCycle]
  split <;> simp

@[simp] theorem tickTransition_periods (s : GState) :
    (tickTransition s).periods = s.periods := by
  simp only [tickTransition]
  split
  · split <;> rfl
  · rfl

@[simp] theorem mouseStep_periods (s : GState) (mx my : ℝ) :
    (mouseStep mx my s).periods = s.periods := by
  simp only [mouseStep]
  split
  · rfl
  · split <;> rfl

@[simp] theorem mouseStep_trans (s : GState) (mx my : ℝ) :
    (mouseStep mx my s).periodTransition = s.periodTransition := by
  simp only [mouseStep]
  split
  · rfl
  · split <;> rfl

@[simp] theorem mouseMoved_periods (s : GState) (mx my : ℝ) :
    (mouseMoved s mx my).periods = s.periods := by
  unfold mouseMoved
  split <;> simp

@[simp] theorem mouseMoved_trans (s : GState) (mx my : ℝ) :
    (mouseMoved s mx my).periodTransition = s.periodTransition := by
  unfold mouseMoved
  split <;> simp

@[simp] theorem keyPressed_periods (s : GState) (key : String) :
    (keyPressed s key).periods = s.periods := by
  unfold keyPressed
  repeat' split
  all_goals simp

@[simp] theorem windowResized_periods (s : GState) (w h : ℝ) :
    (windowResized s w h).periods = s.periods := rfl

@[simp] theorem windowResized_trans (s : GState) (w h : ℝ) :
    (windowResized s w h).periodTransition = s.periodTransition := rfl

@[simp] theorem draw_periods (s : GState) (dt : ℝ) :
    (draw s dt).periods = s.periods := by
  unfold draw
  split <;> simp

theorem switchToPeriod_trans (s : GState) (name : String) :
    (switchToPeriod s name).periodTransition = s.periodTransition ∨
      (switchToPeriod s name).periodTransition = 0 := by
  simp only [switchToPeriod]
  split
  · left; rfl
  · split
    · left; rfl
    · split
      · right; rfl
      · right; rfl

theorem transBounds_switchToPeriod (s : GState) (name : String)
    (h0 : 0 ≤ s.periodTransition) (h1 : s.periodTransition ≤ 1) :
    0 ≤ (switchToPeriod s name).periodTransition ∧
      (switchToPeriod s name).periodTransition ≤ 1 := by
  rcases switchToPeriod_trans s name with h | h
  · rw [h]; exact ⟨h0, h1⟩
  · rw [h]; exact ⟨le_refl 0, by norm_num⟩

theorem transBounds_cyclePeriod (s : GState)
    (h0 : 0 ≤ s.periodTransition) (h1 : s.periodTransition ≤ 1) :
    0 ≤ (cyclePeriod s).periodTransition ∧ (cyclePeriod s).periodTransition ≤ 1 := by
  unfold cyclePeriod
  exact transBounds_switchToPeriod _ _ h0 h1

theorem transBounds_autoCycle (s : GState) (dt : ℝ)
    (h0 : 0 ≤ s.periodTransition) (h1 : s.periodTransition ≤ 1) :
    0 ≤ (autoCycle s dt).periodTransition ∧ (autoCycle s dt).periodTransition ≤ 1 := by
  simp only [autoCycle]
  split
  · exact transBounds_cyclePeriod _ h0 h1
  · exact ⟨h0, h1⟩

theorem transBounds_tickTransition (s : GState)
    (h0 : 0 ≤ s.periodTransition) (h1 : s.periodTransition ≤ 1) :
    0 ≤ (tickTransition s).periodTransition ∧ (tickTransition s).periodTransition ≤ 1 := by
  simp only [tickTransition]
  split
  · split
    · constructor
      · show (0 : ℝ) ≤ 1.0
        norm_num
      · show (1.0 : ℝ) ≤ 1
        norm_num
    · rename_i hlt hge
      constructor
      · show (0 : ℝ) ≤ s.periodTransition + 0.003
        linarith
      · show s.periodTransition + 0.003 ≤ 1
        rw [ge_iff_le, not_le] at hge
        linarith
  · exact ⟨h0, h1⟩

theorem transBounds_step (s : GState) (op : Op)
    (h0 : 0 ≤ s.periodTransition) (h1 : s.periodTransition ≤ 1) :
    0 ≤ (step s op).periodTransition ∧ (step s op).periodTransition ≤ 1 := by
  cases op with
  | frame dt =>
    simp only [step, draw]
    split
    · exact ⟨h0, h1⟩
    · rw [runParticles_trans, updateFlowField_trans, updateEddies_trans]
      have ha := transBounds_autoCycle (advanceTime s dt) dt
        (by rw [advanceTime_trans]; exact h0) (by rw [advanceTime_trans]; exact h1)
      exact transBounds_tickTransition _ ha.1 ha.2
  | key k =>
    simp only [step, keyPressed]
    repeat' split
    all_goals
      first
        | exact transBounds_switchToPeriod _ _ h0 h1
        | (refine ⟨?_, ?_⟩ <;>
            simp only [initParticles_trans, initializeEddies_trans] <;> assumption)
        | exact ⟨h0, h1⟩
  | resize w h =>
    refine ⟨?_, ?_⟩ <;> rw [step, windowResized_trans] <;> assumption
  | mouse mx my =>
    refine ⟨?_, ?_⟩ <;> rw [step, mouseMoved_trans] <;> assumption

theorem transBounds_runOps (ops : List Op) : ∀ s : GState,
    0 ≤ s.periodTransition → s.periodTransition ≤ 1 →
    0 ≤ (runOps s ops).periodTransition ∧ (runOps s ops).periodTransition ≤ 1 := by
  induction ops with
  | nil => intro s h0 h1; exact ⟨h0, h1⟩
  | cons op t ih =>
    intro s h0 h1
    have h := transBounds_step s op h0 h1
    simpa only [runOps, List.foldl_cons] using ih (step s op) h.1 h.2

theorem initializeEddiesList_length (w h : ℝ) (u : ℕ → ℝ) :
    (initializeEddiesList w h u).length = 14 := by
  simp [initializeEddiesList]

/-- C9: no operation of the system (per-frame draw with its auto-cycling,
transition, flow-field recompute and particle updates, key handling with
preset switching and reset, resizing, mouse interaction) ever mutates any
field of any preset descriptor in PERIODS: the whole periods table is
unchanged by every operation and every sequence of operations. -/
theorem periods_never_mutated :
    (∀ (s : GState) (op : Op), (step s op).periods = s.periods) ∧
    (∀ (s : GState) (ops : List Op), (runOps s ops).periods = s.periods) := by
  have hstep : ∀ (s : GState) (op : Op), (step s op).periods = s.periods := by
    intro s op
    cases op <;> simp [step]
  refine ⟨hstep, ?_⟩
  intro s ops
  induction ops generalizing s with
  | nil => rfl
  | cons op t ih =>
    calc (runOps s (op :: t)).periods
        = (runOps (step s op) t).periods := by simp only [runOps, List.foldl_cons]
      _ = (step s op).periods := ih (step s op)
      _ = s.periods := hstep s op

/-- C3: starting from any state with transition progress in [0,1], the
progress stays in [0,1] under any sequence of frame ticks, key presses
(hence requestSwitch calls), resizes and mouse moves; an effective switch
resets it to 0; a tick never decreases it, adds exactly the fixed step
0.003 while strictly below the clamp, and on reaching or exceeding 1
clamps it to exactly 1 and settles the active preset to the target. -/
theorem transition_progress_invariant :
    (∀ (s : GState) (ops : List Op), 0 ≤ s.periodTransition → s.periodTransition ≤ 1 →
      0 ≤ (runOps s ops).periodTransition ∧ (runOps s ops).periodTransition ≤ 1) ∧
    (∀ (s : GState) (name : String) (pid : PeriodId),
      lookupPeriod name = some pid → pid ≠ s.targetId →
      (switchToPeriod s name).periodTransition = 0) ∧
    (∀ s : GState, s.periodTransition ≤ (tickTransition s).periodTransition) ∧
    (∀ s : GState, s.periodTransition < 1 → s.periodTransition + 0.003 < 1 →
      (tickTransition s).periodTransition = s.periodTransition + 0.003) ∧
    (∀ s : GState, s.periodTransition < 1 → 1 ≤ s.periodTransition + 0.003 →
      (tickTransition s).periodTransition = 1 ∧ (tickTransition s).currentId = s.targetId) := by
  refine ⟨fun s ops => transBounds_runOps ops s, ?_, ?_, ?_, ?_⟩
  · intro s name pid h hne
    unfold switchToPeriod
    rw [h]
    dsimp only
    rw [if_neg hne]
    split <;> rfl
  · intro s
    simp only [tickTransition]
    split
    · split
      · rename_i ha _
        show s.periodTransition ≤ (1.0 : ℝ)
        norm_num at ha ⊢
        linarith
      · show s.periodTransition ≤ s.periodTransition + 0.003
        norm_num
    · exact le_refl _
  · intro s h1 h2
    simp only [tickTransition]
    split
    · split
      · rename_i hge
        rw [ge_iff_le] at hge
        norm_num at hge
        linarith
      · rfl
    · rename_i hlt
      norm_num at hlt
      linarith
  · intro s h1 h2
    simp only [tickTransition]
    split
    · split
      · constructor
        · show (1.0 : ℝ) = 1
          norm_num
        · rfl
      · rename_i hge
        rw [ge_iff_le, not_le] at hge
        norm_num at hge
        linarith
    · rename_i hlt
      norm_num at hlt
      linarith

/-- Witness for C3 at the concrete base state: a frame, a manual switch to
starryNight and another frame keep the progress in [0,1]; a manual switch
to paris away from the nuenen target resets the progress to 0. -/
theorem transition_progress_invariant_witness :
    (0 ≤ (runOps baseState [Op.frame 16, Op.key ("4"), Op.frame 16]).periodTransition ∧
      (runOps baseState [Op.frame 16, Op.key ("4"), Op.frame 16]).periodTransition ≤ 1) ∧
    (switchToPeriod baseState ("paris")).periodTransition = 0 := by
  constructor
  · exact transition_progress_invariant.1 baseState _
      (by norm_num [baseState]) (by norm_num [baseState])
  · exact transition_progress_invariant.2.1 baseState ("paris") PeriodId.paris rfl (by decide)

/-- C4: switchToPeriod with a valid name is a no-op when the named preset
is already the target; otherwise it sets the target preset, resets the
transition progress to 0, and reinitializes the eddy system to the
configured count of 14 exactly when the name is starryNight. -/
theorem switchToPeriod_behavior :
    ∀ (s : GState) (name : String) (pid : PeriodId), lookupPeriod name = some pid →
      (pid = s.targetId → switchToPeriod s name = s) ∧
      (pid ≠ s.targetId →
        (switchToPeriod s name).targetId = pid ∧
        (switchToPeriod s name).periodTransition = 0 ∧
        (name = "starryNight" → (switchToPeriod s name).eddyCenters.length = 14) ∧
        (name ≠ "starryNight" → (switchToPeriod s name).eddyCenters = s.eddyCenters)) := by
  intro s name pid h
  unfold switchToPeriod
  rw [h]
  dsimp only
  constructor
  · intro he
    rw [if_pos he]
  · intro hne
    rw [if_neg hne]
    refine ⟨?_, ?_, ?_, ?_⟩
    · split <;> rfl
    · split <;> rfl
    · intro hn
      rw [if_pos hn]
      simp only [initializeEddies, initializeEddiesList_length]
    · intro hn
      rw [if_neg hn]

/-- Witness for C4: switching the base state (target nuenen, settled) to
starryNight. -/
theorem switchToPeriod_behavior_witness :
    (PeriodId.starryNight = baseState.targetId →
      switchToPeriod baseState ("starryNight") = baseState) ∧
    (PeriodId.starryNight ≠ baseState.targetId →
      (switchToPeriod baseState ("starryNight")).targetId = PeriodId.starryNight ∧
      (switchToPeriod baseState ("starryNight")).periodTransition = 0 ∧
      ("starryNight" = "starryNight" →
        (switchToPeriod baseState ("starryNight")).eddyCenters.length = 14) ∧
      ("starryNight" ≠ "starryNight" →
        (switchToPeriod baseState ("starryNight")).eddyCenters = baseState.eddyCenters)) :=
  switchToPeriod_behavior baseState ("starryNight") PeriodId.starryNight rfl

/-- C10: switchToPeriod with a name that is not one of the five period
identifiers leaves the entire state (target, active, progress, eddies and
everything else) unchanged. -/
theorem switchToPeriod_invalid_noop :
    ∀ (s : GState) (name : String), lookupPeriod name = none → switchToPeriod s name = s := by
  intro s name h
  unfold switchToPeriod
  rw [h]

/-- Witness for C10: an unknown period name on the concrete base state. -/
theorem switchToPeriod_invalid_noop_witness :
    switchToPeriod baseState ("gauguin") = baseState :=
  switchToPeriod_invalid_noop baseState ("gauguin") rfl

/-- C5: the stroke-technique selection is the active preset's technique
when the transition progress is at least 1 or still above the 0.5
midpoint, and the target preset's technique once the progress is at or
below 0.5 — a hard switch, never a mixture. -/
theorem strokeType_selection :
    ∀ s : GState,
      (1 ≤ s.periodTransition →
        getCurrentStrokeType s = (s.periods s.currentId).strokeType) ∧
      (s.periodTransition < 1 → 0.5 < s.periodTransition →
        getCurrentStrokeType s = (s.periods s.currentId).strokeType) ∧
      (s.periodTransition < 1 → s.periodTransition ≤ 0.5 →
        getCurrentStrokeType s = (s.periods s.targetId).strokeType) := by
  intro s
  refine ⟨?_, ?_, ?_⟩ <;>
    · intro h1
      try intro h2
      unfold getCurrentStrokeType
      split_ifs with ha hb
      all_goals try rfl
      all_goals exfalso
      all_goals
        first
          | (rw [ge_iff_le, not_le] at ha; norm_num at ha; linarith)
          | (rw [not_lt] at hb; norm_num at hb; linarith)
          | (rw [ge_iff_le] at ha; norm_num at ha; linarith)
          | (norm_num at hb; linarith)

/-- Witness for C5: in the second half of a transition (progress 0.25) the
target preset's technique is selected. -/
theorem strokeType_selection_witness :
    getCurrentStrokeType { baseState with periodTransition := 0.25 } =
      (PERIODS PeriodId.nuenen).strokeType :=
  (strokeType_selection { baseState with periodTransition := 0.25 }).2.2
    (by norm_num) (by norm_num)

theorem energy_rpow (x y scale rotation u1 u2 : ℝ) :
    (Eddy.make x y scale rotation u1 u2).energy = scale ^ ((5 : ℝ) / 3) := by
  unfold Eddy.make starryNightKolmogorov
  norm_num

theorem rpow_eight_five_thirds : (8 : ℝ) ^ ((5 : ℝ) / 3) = 32 := by
  have h2 : (0 : ℝ) ≤ 2 := by norm_num
  have h8 : (8 : ℝ) = (2 : ℝ) ^ (((3 : ℕ) : ℝ)) := by
    rw [Real.rpow_natCast]
    norm_num
  rw [h8, ← Real.rpow_mul h2]
  rw [show ((3 : ℕ) : ℝ) * ((5 : ℝ) / 3) = (((5 : ℕ) : ℝ)) by push_cast; ring]
  rw [Real.rpow_natCast]
  norm_num

theorem atan2_zero_zero : atan2 0 0 = 0 := by
  unfold atan2
  norm_num

theorem getInfluence_center (e : Eddy) (hs : 0 < e.scale) :
    Eddy.getInfluence e e.x e.y =
      some { angle := HALF_PI * e.rotation, strength := e.energy } := by
  simp only [Eddy.getInfluence, sub_self, mul_zero, zero_mul, add_zero, Real.sqrt_zero,
    atan2_zero_zero, zero_add, neg_zero, zero_div, Real.exp_zero, one_mul]
  rw [if_neg (not_lt.mpr (by nlinarith))]

theorem constrainI_bounds (n lo hi : ℤ) (h : lo ≤ hi) :
    lo ≤ constrainI n lo hi ∧ constrainI n lo hi ≤ hi := by
  unfold constrainI
  omega

theorem gridIndex_bounds (pos : Vec) (cols rows : ℕ) (hc : 0 < cols) (hr : 0 < rows) :
    0 ≤ gridIndex pos cols rows ∧ gridIndex pos cols rows < (cols : ℤ) * rows := by
  simp only [gridIndex]
  have hc1 : (1 : ℤ) ≤ (cols : ℤ) := by exact_mod_cast hc
  have hr1 : (1 : ℤ) ≤ (rows : ℤ) := by exact_mod_cast hr
  obtain ⟨hx0, hx1⟩ := constrainI_bounds ⌊pos.x / SCALE⌋ 0 ((cols : ℤ) - 1) (by omega)
  obtain ⟨hy0, hy1⟩ := constrainI_bounds ⌊pos.y / SCALE⌋ 0 ((rows : ℤ) - 1) (by omega)
  constructor
  · exact add_nonneg hx0 (mul_nonneg hy0 (by omega))
  · have h1 : constrainI ⌊pos.y / SCALE⌋ 0 ((rows : ℤ) - 1) * (cols : ℤ) ≤
        ((rows : ℤ) - 1) * (cols : ℤ) :=
      mul_le_mul_of_nonneg_right hy1 (by omega)
    nlinarith

/-- C1 counterexample: the energy (scale)^(-cascadeExponent) = scale^(5/3)
of an eddy constructed with the turbulent preset's cascade exponent -5/3
is NOT non-increasing in the base scale: 40 ≤ 300, yet the energy at base
scale 300 is strictly greater than the energy at base scale 40. -/
theorem eddy_energy_not_antitone :
    (40 : ℝ) ≤ 300 ∧
      ¬ ((Eddy.make 0 0 300 1 0 0).energy ≤ (Eddy.make 0 0 40 1 0 0).energy) := by
  constructor
  · norm_num
  · rw [energy_rpow, energy_rpow, not_le]
    exact Real.rpow_lt_rpow (by norm_num) (by norm_num) (by norm_num)

/-- C1 (amended): the energy derived at construction as
(scale)^(-cascadeExponent) = scale^(5/3) is monotonically non-DEcreasing
as the base scale increases over nonnegative scales, and in particular the
energy of an eddy with base scale 300 is ≥ the energy of an eddy with base
scale 40 (larger eddies hold more energy). -/
theorem eddy_energy_monotone :
    (∀ x1 y1 r1 u1 v1 x2 y2 r2 u2 v2 s1 s2 : ℝ, 0 ≤ s1 → s1 ≤ s2 →
      (Eddy.make x1 y1 s1 r1 u1 v1).energy ≤ (Eddy.make x2 y2 s2 r2 u2 v2).energy) ∧
    (Eddy.make 0 0 40 1 0 0).energy ≤ (Eddy.make 0 0 300 1 0 0).energy := by
  have hmono : ∀ x1 y1 r1 u1 v1 x2 y2 r2 u2 v2 s1 s2 : ℝ, 0 ≤ s1 → s1 ≤ s2 →
      (Eddy.make x1 y1 s1 r1 u1 v1).energy ≤ (Eddy.make x2 y2 s2 r2 u2 v2).energy := by
    intro x1 y1 r1 u1 v1 x2 y2 r2 u2 v2 s1 s2 h0 h12
    rw [energy_rpow, energy_rpow]
    exact Real.rpow_le_rpow h0 h12 (by norm_num)
  exact ⟨hmono, hmono 0 0 1 0 0 0 0 1 0 0 40 300 (by norm_num) (by norm_num)⟩

/-- Witness for C1 (amended) at base scales 40 and 300. -/
theorem eddy_energy_monotone_witness :
    (Eddy.make 0 0 40 1 0 0).energy ≤ (Eddy.make 0 0 300 1 0 0).energy :=
  eddy_energy_monotone.1 0 0 1 0 0 0 0 1 0 0 40 300 (by norm_num) (by norm_num)

/-- C2 counterexample: at the exact center of an eddy constructed with base
scale 8, getInfluence returns a perfectly defined influence, but its
strength is exp(0) * energy = 8^(5/3) = 32, not exp(0) = 1. -/
theorem getInfluence_center_strength_ne_one :
    Eddy.getInfluence (Eddy.make 0 0 8 1 0 0) 0 0 =
      some { angle := HALF_PI, strength := 32 } ∧ (32 : ℝ) ≠ 1 := by
  constructor
  · have h := getInfluence_center (Eddy.make 0 0 8 1 0 0) (by norm_num [Eddy.make])
    rw [show (Eddy.make 0 0 8 1 0 0).x = 0 from rfl,
      show (Eddy.make 0 0 8 1 0 0).y = 0 from rfl] at h
    rw [h, show (Eddy.make 0 0 8 1 0 0).rotation = (1 : ℝ) from rfl, mul_one,
      show (Eddy.make 0 0 8 1 0 0).energy = 32 from by
        rw [energy_rpow]; exact rpow_eight_five_thirds]
  · norm_num

/-- C2 (amended): getInfluence returns none for points farther than 3
times the current scale from the eddy center and an influence otherwise;
at distance exactly 0 (for a positive scale) the angle is the defined
value HALF_PI * rotation and the strength is exp(0) * energy = energy —
no division-by-zero failure, though not the bare 1 the claim stated. -/
theorem getInfluence_cutoff_and_center :
    ∀ (e : Eddy) (px py : ℝ),
      (Real.sqrt ((px - e.x) * (px - e.x) + (py - e.y) * (py - e.y)) > e.scale * 3 →
        Eddy.getInfluence e px py = none) ∧
      (Real.sqrt ((px - e.x) * (px - e.x) + (py - e.y) * (py - e.y)) ≤ e.scale * 3 →
        (Eddy.getInfluence e px py).isSome) ∧
      (0 < e.scale →
        Eddy.getInfluence e e.x e.y =
          some { angle := HALF_PI * e.rotation, strength := e.energy }) := by
  intro e px py
  refine ⟨?_, ?_, ?_⟩
  · intro h
    simp only [Eddy.getInfluence]
    rw [if_pos h]
  · intro h
    simp only [Eddy.getInfluence]
    rw [if_neg (not_lt.mpr h)]
    rfl
  · intro hs
    exact getInfluence_center e hs

/-- Witness for C2 (amended): a concrete eddy of scale 2 at the origin,
probed beyond the cutoff, at the cutoff boundary, and at its center. -/
theorem getInfluence_cutoff_and_center_witness :
    (Real.sqrt ((7 - (Eddy.make 0 0 2 1 0 0).x) * (7 - (Eddy.make 0 0 2 1 0 0).x) +
        (0 - (Eddy.make 0 0 2 1 0 0).y) * (0 - (Eddy.make 0 0 2 1 0 0).y)) >
          (Eddy.make 0 0 2 1 0 0).scale * 3 →
      Eddy.getInfluence (Eddy.make 0 0 2 1 0 0) 7 0 = none) ∧
    (Real.sqrt ((7 - (Eddy.make 0 0 2 1 0 0).x) * (7 - (Eddy.make 0 0 2 1 0 0).x) +
        (0 - (Eddy.make 0 0 2 1 0 0).y) * (0 - (Eddy.make 0 0 2 1 0 0).y)) ≤
          (Eddy.make 0 0 2 1 0 0).scale * 3 →
      (Eddy.getInfluence (Eddy.make 0 0 2 1 0 0) 7 0).isSome) ∧
    (0 < (Eddy.make 0 0 2 1 0 0).scale →
      Eddy.getInfluence (Eddy.make 0 0 2 1 0 0) (Eddy.make 0 0 2 1 0 0).x
          (Eddy.make 0 0 2 1 0 0).y =
        some { angle := HALF_PI * (Eddy.make 0 0 2 1 0 0).rotation,
               strength := (Eddy.make 0 0 2 1 0 0).energy }) :=
  getInfluence_cutoff_and_center (Eddy.make 0 0 2 1 0 0) 7 0

/-- C7: the flow-field lookup in Particle.follow clamps the grid column and
row into bounds for every particle position, so the computed index always
addresses a valid cell of a cols-by-rows field; the sampled vector is
scaled by speedMultiplier*0.5 and accumulated into the particle's force;
and a position 1000 pixels beyond the canvas width clamps to the last
valid column. -/
theorem follow_clamps_index :
    ∀ (p : Particle) (field : List (Option Vec)) (cols rows : ℕ) (sm : ℝ),
      0 < cols → 0 < rows →
      (0 ≤ gridIndex p.pos cols rows ∧
        (gridIndex p.pos cols rows).toNat < cols * rows) ∧
      (field.length = cols * rows → (getI field (gridIndex p.pos cols rows)).isSome) ∧
      (∀ f : Vec, getI field (gridIndex p.pos cols rows) = some (some f) →
        p.follow field cols rows sm = { p with acc := p.acc.add (f.smul (sm * 0.5)) }) ∧
      (∀ w : ℝ, 0 ≤ w → p.pos.x = w + 1000 → cols = (⌊w / SCALE⌋ + 1).toNat →
        constrainI ⌊p.pos.x / SCALE⌋ 0 ((cols : ℤ) - 1) = (cols : ℤ) - 1) := by
  intro p field cols rows sm hc hr
  obtain ⟨hg0, hglt⟩ := gridIndex_bounds p.pos cols rows hc hr
  have hnat : (gridIndex p.pos cols rows).toNat < cols * rows := by
    rw [Int.toNat_lt' (by positivity)]
    push_cast
    exact hglt
  refine ⟨⟨hg0, hnat⟩, ?_, ?_, ?_⟩
  · intro hlen
    unfold getI
    rw [if_pos hg0]
    cases hq : field.get? (gridIndex p.pos cols rows).toNat with
    | none =>
      exfalso
      rw [List.get?_eq_none] at hq
      omega
    | some v => rfl
  · intro f hf
    simp only [Particle.follow]
    rw [hf]
  · intro w hw hx hcols
    have hscale : SCALE = (15 : ℝ) := rfl
    have hdiv : w / SCALE + ((66 : ℤ) : ℝ) ≤ (w + 1000) / SCALE := by
      rw [hscale]
      have : (w + 1000) / 15 - w / 15 = 1000 / 15 := by ring
      push_cast
      linarith [this, show (66 : ℝ) ≤ 1000 / 15 by norm_num]
    have hfloor : ⌊w / SCALE⌋ + 66 ≤ ⌊(w + 1000) / SCALE⌋ := by
      calc ⌊w / SCALE⌋ + 66 = ⌊w / SCALE + ((66 : ℤ) : ℝ)⌋ := (Int.floor_add_int _ _).symm
        _ ≤ ⌊(w + 1000) / SCALE⌋ := Int.floor_le_floor hdiv
    have hfw : 0 ≤ ⌊w / SCALE⌋ := by
      apply Int.floor_nonneg.mpr
      rw [hscale]
      positivity
    have hcast : ((cols : ℕ) : ℤ) = ⌊w / SCALE⌋ + 1 := by
      rw [hcols]
      exact Int.toNat_of_nonneg (by omega)
    rw [hx, hcast]
    unfold constrainI
    omega

/-- Witness for C7 on a one-cell grid with a concrete particle and field. -/
theorem follow_clamps_index_witness :
    (0 ≤ gridIndex testParticle.pos 1 1 ∧ (gridIndex testParticle.pos 1 1).toNat < 1 * 1) ∧
    (([some (⟨1, 0⟩ : Vec)] : List (Option Vec)).length = 1 * 1 →
      (getI [some (⟨1, 0⟩ : Vec)] (gridIndex testParticle.pos 1 1)).isSome) ∧
    (∀ f : Vec, getI [some (⟨1, 0⟩ : Vec)] (gridIndex testParticle.pos 1 1) = some (some f) →
      testParticle.follow [some (⟨1, 0⟩ : Vec)] 1 1 2 =
        { testParticle with acc := testParticle.acc.add (f.smul (2 * 0.5)) }) ∧
    (∀ w : ℝ, 0 ≤ w → testParticle.pos.x = w + 1000 → 1 = (⌊w / SCALE⌋ + 1).toNat →
      constrainI ⌊testParticle.pos.x / SCALE⌋ 0 ((1 : ℤ) - 1) = (1 : ℤ) - 1) :=
  follow_clamps_index testParticle [some (⟨1, 0⟩ : Vec)] 1 1 2
    (by norm_num) (by norm_num)

theorem randIn_bounds (a b u : ℝ) (hab : a ≤ b) (h0 : 0 ≤ u) (h1 : u < 1) :
    a ≤ randIn a b u ∧ randIn a b u ≤ b := by
  unfold randIn
  constructor
  · nlinarith [mul_nonneg h0 (sub_nonneg.mpr hab)]
  · nlinarith [mul_nonneg (sub_nonneg.mpr h1.le) (sub_nonneg.mpr hab)]

theorem largeEddy_fields (w h : ℝ) (v : ℕ → ℝ) :
    (largeEddy w h v).baseScale = randIn 150 300 (v 2) ∧
      (largeEddy w h v).y = randIn (h * 0.1) (h * 0.5) (v 1) := ⟨rfl, rfl⟩

theorem tier_rotation (w h : ℝ) (v : ℕ → ℝ) :
    ((largeEddy w h v).rotation = 1 ∨ (largeEddy w h v).rotation = -1) ∧
      ((mediumEddy w h v).rotation = 1 ∨ (mediumEddy w h v).rotation = -1) ∧
      ((smallEddy w h v).rotation = 1 ∨ (smallEddy w h v).rotation = -1) := by
  unfold largeEddy mediumEddy smallEddy Eddy.make
  refine ⟨?_, ?_, ?_⟩ <;> dsimp only <;> split <;> simp

theorem initializeEddiesList_take5 (w h : ℝ) (u : ℕ → ℝ) :
    (initializeEddiesList w h u).take 5 =
      (List.range 5).map (fun i => largeEddy w h (fun j => u (6 * i + j))) := by
  simp [initializeEddiesList, List.take_append_eq_append_take]

theorem initializeEddiesList_mid5 (w h : ℝ) (u : ℕ → ℝ) :
    ((initializeEddiesList w h u).drop 5).take 5 =
      (List.range 5).map (fun i => mediumEddy w h (fun j => u (30 + 6 * i + j))) := by
  simp [initializeEddiesList, List.drop_append_eq_append_drop, List.take_append_eq_append_take]

theorem initializeEddiesList_drop10 (w h : ℝ) (u : ℕ → ℝ) :
    (initializeEddiesList w h u).drop 10 =
      (List.range 4).map (fun i => smallEddy w h (fun j => u (60 + 6 * i + j))) := by
  simp [initializeEddiesList, List.drop_append_eq_append_drop]

theorem initializeEddiesList_tiers (w h : ℝ) (u : ℕ → ℝ)
    (hu : ∀ n, 0 ≤ u n ∧ u n < 1) (hh : 0 ≤ h) :
    (∀ e ∈ (initializeEddiesList w h u).take 5,
      150 ≤ e.baseScale ∧ e.baseScale ≤ 300 ∧ 0 ≤ e.y ∧ e.y ≤ h / 2) ∧
    (∀ e ∈ ((initializeEddiesList w h u).drop 5).take 5,
      80 ≤ e.baseScale ∧ e.baseScale ≤ 150) ∧
    (∀ e ∈ (initializeEddiesList w h u).drop 10,
      40 ≤ e.baseScale ∧ e.baseScale ≤ 80) ∧
    (∀ e ∈ initializeEddiesList w h u, e.rotation = 1 ∨ e.rotation = -1) := by
  refine ⟨?_, ?_, ?_, ?_⟩
  · rw [initializeEddiesList_take5]
    intro e he
    simp only [List.mem_map, List.mem_range] at he
    obtain ⟨i, _, rfl⟩ := he
    have hb := randIn_bounds 150 300 (u (6 * i + 2)) (by norm_num)
      (hu (6 * i + 2)).1 (hu (6 * i + 2)).2
    have hab : h * 0.1 ≤ h * 0.5 := by linarith
    have hy := randIn_bounds (h * 0.1) (h * 0.5) (u (6 * i + 1)) hab
      (hu (6 * i + 1)).1 (hu (6 * i + 1)).2
    refine ⟨hb.1, hb.2, ?_, ?_⟩
    · have : (0 : ℝ) ≤ h * 0.1 := by linarith
      calc (0 : ℝ) ≤ h * 0.1 := this
        _ ≤ (largeEddy w h fun j => u (6 * i + j)).y := hy.1
    · calc (largeEddy w h fun j => u (6 * i + j)).y ≤ h * 0.5 := hy.2
        _ = h / 2 := by ring
  · rw [initializeEddiesList_mid5]
    intro e he
    simp only [List.mem_map, List.mem_range] at he
    obtain ⟨i, _, rfl⟩ := he
    exact randIn_bounds 80 150 (u (30 + 6 * i + 2)) (by norm_num)
      (hu (30 + 6 * i + 2)).1 (hu (30 + 6 * i + 2)).2
  · rw [initializeEddiesList_drop10]
    intro e he
    simp only [List.mem_map, List.mem_range] at he
    obtain ⟨i, _, rfl⟩ := he
    exact randIn_bounds 40 80 (u (60 + 6 * i + 2)) (by norm_num)
      (hu (60 + 6 * i + 2)).1 (hu (60 + 6 * i + 2)).2
  · intro e he
    simp only [initializeEddiesList, List.mem_append, List.mem_map, List.mem_range] at he
    rcases he with ⟨i, _, rfl⟩ | ⟨i, _, rfl⟩ | ⟨i, _, rfl⟩
    · exact (tier_rotation w h _).1
    · exact (tier_rotation w h _).2.1
    · exact (tier_rotation w h _).2.2

/-- C8: initializing the eddy system replaces the eddy list (independently
of whatever eddies existed before) with exactly 14 eddies: the first 5 are
large (base scale in [150,300]) and sit in the upper half of the canvas,
the next 5 are medium (base scale in [80,150]), the last 4 are small (base
scale in [40,80]), and every eddy's rotation sign is +1 or -1. -/
theorem initializeEddies_tiers :
    ∀ s : GState, (∀ n, 0 ≤ s.rand n ∧ s.rand n < 1) → 0 ≤ s.height →
      (initializeEddies s).eddyCenters.length = 14 ∧
      (∀ e ∈ (initializeEddies s).eddyCenters.take 5,
        150 ≤ e.baseScale ∧ e.baseScale ≤ 300 ∧ 0 ≤ e.y ∧ e.y ≤ s.height / 2) ∧
      (∀ e ∈ ((initializeEddies s).eddyCenters.drop 5).take 5,
        80 ≤ e.baseScale ∧ e.baseScale ≤ 150) ∧
      (∀ e ∈ (initializeEddies s).eddyCenters.drop 10,
        40 ≤ e.baseScale ∧ e.baseScale ≤ 80) ∧
      (∀ e ∈ (initializeEddies s).eddyCenters, e.rotation = 1 ∨ e.rotation = -1) ∧
      (∀ s' : GState, s'.width = s.width → s'.height = s.height → s'.rand = s.rand →
        s'.rk = s.rk → (initializeEddies s').eddyCenters = (initializeEddies s).eddyCenters) := by
  intro s hu hh
  have hu' : ∀ n, 0 ≤ s.rand (s.rk + n) ∧ s.rand (s.rk + n) < 1 := fun n => hu (s.rk + n)
  have ht := initializeEddiesList_tiers s.width s.height (fun j => s.rand (s.rk + j)) hu' hh
  rw [show (initializeEddies s).eddyCenters =
    initializeEddiesList s.width s.height (fun j => s.rand (s.rk + j)) from rfl]
  refine ⟨initializeEddiesList_length _ _ _, ht.1, ht.2.1, ht.2.2.1, ht.2.2.2, ?_⟩
  intro s' hw hh' hr hk
  show initializeEddiesList s'.width s'.height (fun j => s'.rand (s'.rk + j)) =
    initializeEddiesList s.width s.height (fun j => s.rand (s.rk + j))
  rw [hw, hh', hr, hk]

theorem influenceFoldAux_eq (px py : ℝ) : ∀ (l : List Eddy) (a b : ℝ),
    influenceFoldAux px py (a, b) l =
      (a + ((eddyInfluences l px py).map (fun i => i.angle * i.strength)).sum,
       b + ((eddyInfluences l px py).map Influence.strength).sum) := by
  intro l
  induction l with
  | nil =>
    intro a b
    simp [influenceFoldAux, eddyInfluences]
  | cons e t ih =>
    intro a b
    cases h : Eddy.getInfluence e px py with
    | none =>
      rw [show influenceFoldAux px py (a, b) (e :: t) = influenceFoldAux px py (a, b) t by
        simp [influenceFoldAux, List.foldl_cons, h]]
      rw [ih]
      simp [eddyInfluences, List.filterMap_cons, h]
    | some i =>
      rw [show influenceFoldAux px py (a, b) (e :: t) =
          influenceFoldAux px py (a + i.angle * i.strength, b + i.strength) t by
        simp [influenceFoldAux, List.foldl_cons, h]]
      rw [ih]
      simp only [eddyInfluences, List.filterMap_cons, h, List.map_cons, List.sum_cons,
        Prod.mk.injEq]
      constructor <;> ring

theorem getInfluence_strength_nonneg (e : Eddy) (px py : ℝ) (he : 0 ≤ e.energy) :
    ∀ i : Influence, Eddy.getInfluence e px py = some i → 0 ≤ i.strength := by
  intro i h
  unfold Eddy.getInfluence at h
  dsimp only at h
  split at h
  · exact absurd h (by simp)
  · rw [Option.some.injEq] at h
    subst h
    exact mul_nonneg (Real.exp_nonneg _) he

theorem influences_strength_sum_nonneg (eddies : List Eddy) (px py : ℝ)
    (he : ∀ e ∈ eddies, 0 ≤ e.energy) :
    0 ≤ ((eddyInfluences eddies px py).map Influence.strength).sum := by
  apply List.sum_nonneg
  intro x hx
  simp only [List.mem_map] at hx
  obtain ⟨i, hi, rfl⟩ := hx
  simp only [eddyInfluences, List.mem_filterMap] at hi
  obtain ⟨e, hme, hinf⟩ := hi
  exact getInfluence_strength_nonneg e px py (he e hme) i hinf

/-- C6: totalFlow agrees with the strength-weighted mean of the influencing
eddies' angles blended with the 0.3-weight noise background angle (the
normalization by the total strength never divides by zero for eddies of
nonnegative energy), and with no eddies at all it still returns the
background angle. -/
theorem turbulentFlow_weighted_mean :
    ∀ (eddies : List Eddy) (noisefn : ℝ → ℝ → ℝ → ℝ) (t px py : ℝ),
      (∀ e ∈ eddies, 0 ≤ e.energy) →
      getTurbulentFlow eddies noisefn t px py = turbulentFlowSpec eddies noisefn t px py ∧
      getTurbulentFlow [] noisefn t px py =
        noisefn (px * 0.002) (py * 0.002) (t * 0.5) * TWO_PI := by
  intro eddies noisefn t px py he
  constructor
  · have hsum := influences_strength_sum_nonneg eddies px py he
    unfold getTurbulentFlow turbulentFlowSpec
    simp only [influenceFoldAux_eq, zero_add]
    rw [if_pos]
    linarith
  · unfold getTurbulentFlow
    simp only [influenceFoldAux]
    norm_num

/-- Witness for C6 at a single concrete eddy. -/
theorem turbulentFlow_weighted_mean_witness :
    getTurbulentFlow [Eddy.make 0 0 1 1 0 0] (fun _ _ _ => 0) 0 0 0 =
      turbulentFlowSpec [Eddy.make 0 0 1 1 0 0] (fun _ _ _ => 0) 0 0 0 ∧
    getTurbulentFlow [] (fun _ _ _ => 0) 0 0 0 = 0 * TWO_PI :=
  turbulentFlow_weighted_mean [Eddy.make 0 0 1 1 0 0] (fun _ _ _ => 0) 0 0 0
    (by
      intro e hme
      simp only [List.mem_singleton] at hme
      subst hme
      exact Real.rpow_nonneg (by norm_num) _)

/-- Witness for C8: the base state with a constant one-half sample stream. -/
theorem initializeEddies_tiers_witness :
    (initializeEddies { baseState with rand := fun _ => 1 / 2 }).eddyCenters.length = 14 ∧
    (∀ e ∈ (initializeEddies { baseState with rand := fun _ => 1 / 2 }).eddyCenters.take 5,
      150 ≤ e.baseScale ∧ e.baseScale ≤ 300 ∧ 0 ≤ e.y ∧
        e.y ≤ { baseState with rand := fun _ => 1 / 2 : GState }.height / 2) ∧
    (∀ e ∈ ((initializeEddies { baseState with rand := fun _ => 1 / 2 }).eddyCenters.drop 5).take 5,
      80 ≤ e.baseScale ∧ e.baseScale ≤ 150) ∧
    (∀ e ∈ (initializeEddies { baseState with rand := fun _ => 1 / 2 }).eddyCenters.drop 10,
      40 ≤ e.baseScale ∧ e.baseScale ≤ 80) ∧
    (∀ e ∈ (initializeEddies { baseState with rand := fun _ => 1 / 2 }).eddyCenters,
      e.rotation = 1 ∨ e.rotation = -1) ∧
    (∀ s' : GState, s'.width = { baseState with rand := fun _ => 1 / 2 : GState }.width →
      s'.height = { baseState with rand := fun _ => 1 / 2 : GState }.height →
      s'.rand = { baseState with rand := fun _ => 1 / 2 : GState }.rand →
      s'.rk = { baseState with rand := fun _ => 1 / 2 : GState }.rk →
      (initializeEddies s').eddyCenters =
        (initializeEddies { baseState with rand := fun _ => 1 / 2 }).eddyCenters) :=
  initializeEddies_tiers { baseState with rand := fun _ => 1 / 2 }
    (fun _ => by norm_num) (by norm_num [baseState])

end







